import Mathlib

/-!
Shallow embedding of the cortex-search-engine repository
(SearXNG search client + OpenAI enhancement service) in Lean 4.

Sources embedded:
  * src/search_engine/config.py     (SearchConfig and its validation)
  * src/search_engine/exceptions.py (error taxonomy; plus Python ValueError)
  * src/search_engine/models.py     (SearchResult, SearchResponse)
  * src/search_engine/client.py     (SearXNGClient: request building,
    failure classification, parsing, search, search_news)
  * src/services/openai/client.py   (OpenAISearchService: enhancement,
    relevance heuristic, intent extraction)

Python strings are Lean Strings, ints are Int, floats are ℚ (exact
rational arithmetic standing in for IEEE floats), lists are List.
Network and model-backend effects are passed in as explicit outcome
values; wall-clock time is passed as a parameter.
-/

/-!
Python string primitives, implemented by structural recursion over the
character list of the string (so that concrete instances evaluate inside
the kernel).  Python strings index by code point, as `List Char` does.
-/

/-- Split a character list at every separator character (empty fragments
kept, as Python `str.split(sep)` does). -/
def splitChars (sep : Char → Bool) : List Char → List Char → List (List Char)
  | [], cur => [cur.reverse]
  | c :: rest, cur =>
      if sep c then cur.reverse :: splitChars sep rest []
      else splitChars sep rest (c :: cur)

/-- Python `s.split(sep)` for a single-character separator. -/
def pySplitOn (s : String) (sep : Char) : List String :=
  (splitChars (fun c => c = sep) s.data []).map (fun cs => ⟨cs⟩)

/-- Python `str.split()` with no separator: split on whitespace runs and
drop empty fragments. -/
def pySplit (s : String) : List String :=
  ((splitChars (fun c => c.isWhitespace) s.data []).map
    (fun cs => (⟨cs⟩ : String))).filter (fun t => t ≠ "")

/-- Python `s.strip()`: remove whitespace from both ends. -/
def pyStrip (s : String) : String :=
  ⟨((s.data.dropWhile Char.isWhitespace).reverse.dropWhile
      Char.isWhitespace).reverse⟩

/-- Python `s.lower()`. -/
def pyLower (s : String) : String := ⟨s.data.map Char.toLower⟩

/-- Python `s.startswith(p)`. -/
def pyStartsWith (s p : String) : Bool := p.data.isPrefixOf s.data

/-- Python slicing `s[:n]`. -/
def pyTake (s : String) (n : Nat) : String := ⟨s.data.take n⟩

/-- Boolean infix test on lists (decides `List.IsInfix`). -/
def listInfixOf [DecidableEq α] (l₁ l₂ : List α) : Bool :=
  match l₂ with
  | [] => l₁.isEmpty
  | _ :: tl => l₁.isPrefixOf l₂ || listInfixOf l₁ tl

/-- Python `sub in s` substring membership. -/
def strContains (s sub : String) : Bool :=
  listInfixOf sub.toList s.toList

/-- Python `s.strip(chars)`: remove characters of the set `cs` from both
ends of the string. -/
def pyStripChars (s : String) (cs : List Char) : String :=
  ⟨((s.toList.dropWhile (fun c => cs.contains c)).reverse.dropWhile
      (fun c => cs.contains c)).reverse⟩

/-- A single-quote character, used when building prompt strings. -/
def squote : String := String.singleton (Char.ofNat 39)

namespace SearchEngine

/-- The exception classes the search client actually raises:
`ValueError` (Python builtin, used for validation failures) and the
`NetworkError` / `APIError` classes from src/search_engine/exceptions.py.
(`InvalidConfigurationError` is declared in exceptions.py but never
raised; no `EmptyQueryError` class exists anywhere in the repository.) -/
inductive SearchError where
  | valueError (msg : String)
  | networkError (msg : String)
  | apiError (msg : String)
deriving DecidableEq, Repr

/-- The exception message, as Python `str(e)`. -/
def SearchError.message : SearchError → String
  | .valueError m => m
  | .networkError m => m
  | .apiError m => m

/-- src/search_engine/config.py `SearchConfig` fields. -/
structure SearchConfig where
  base_url : String
  timeout : Int
  max_results : Int
  language : String
  safe_search : Int
  time_range : Option String
  categories : List String
  engines : List String
deriving DecidableEq, Repr

/-- src/search_engine/config.py `SearchConfig.__post_init__`: dataclass
construction followed by validation; raises ValueError on the first
failing check, otherwise the constructed (immutable) config. -/
def mkSearchConfig (base_url : String) (timeout max_results : Int)
    (language : String) (safe_search : Int) (time_range : Option String)
    (categories engines : List String) : Except SearchError SearchConfig :=
  if ¬ (pyStartsWith base_url "http://" ∨ pyStartsWith base_url "https://") then
    .error (.valueError "Base URL must start with http:// or https://")
  else if timeout ≤ 0 then
    .error (.valueError "Timeout must be positive")
  else if max_results ≤ 0 then
    .error (.valueError "Max results must be positive")
  else if ¬ (safe_search = 0 ∨ safe_search = 1 ∨ safe_search = 2) then
    .error (.valueError "Safe search must be 0, 1, or 2")
  else
    .ok ⟨base_url, timeout, max_results, language, safe_search, time_range,
         categories, engines⟩

/-- src/search_engine/models.py `SearchResult`. -/
structure SearchResult where
  title : String
  url : String
  content : String
  engines : List String
  category : String
  publishedDate : Option String
deriving DecidableEq, Repr

/-- src/search_engine/models.py `SearchResponse` (search_time is the
measured elapsed seconds, modeled as an exact rational). -/
structure SearchResponse where
  query : String
  results : List SearchResult
  total_results : Int
  search_time : ℚ
  engines_used : List String
  suggestions : List String
deriving DecidableEq, Repr

/-- One raw item of the upstream JSON `results` array: each field may be
absent (Python `item.get(key, default)` supplies the default). -/
structure RawItem where
  title : Option String
  url : Option String
  content : Option String
  engines : Option (List String)
  category : Option String
  publishedDate : Option String
deriving DecidableEq, Repr

/-- The parsed JSON body of a SearXNG response: the `results` array and
the `suggestions` array (`data.get('results', [])`,
`data.get('suggestions', [])`). -/
structure SearxData where
  results : List RawItem
  suggestions : List String
deriving DecidableEq, Repr

/-- The per-item body of the loop in `SearXNGClient._parse_results`
(client.py lines 143-161): skip when the url is non-empty and lacks an
http/https scheme, otherwise build a `SearchResult` with the `get`
defaults.  All field accesses are total (`dict.get` never raises), so
the per-item `try/except` has no failing branch to model. -/
def parseItem (item : RawItem) : Option SearchResult :=
  let url := item.url.getD ""
  if url ≠ "" ∧ ¬ (pyStartsWith url "http://" ∨ pyStartsWith url "https://") then
    none
  else
    some { title := item.title.getD "No title"
           url := url
           content := item.content.getD ""
           engines := item.engines.getD []
           category := item.category.getD "general"
           publishedDate := item.publishedDate }

/-- src/search_engine/client.py `SearXNGClient._parse_results`: iterate
the first `max_results` raw items, appending each surviving parsed
result; `total_results = len(results)`; `engines_used` is the
deduplicated union of surviving results' engine lists (Python builds it
through a set; we keep first-occurrence order). -/
def _parse_results (cfg : SearchConfig) (data : SearxData) (query : String)
    (search_time : ℚ) : SearchResponse :=
  let results := (data.results.take cfg.max_results.toNat).foldl
    (fun acc item => acc ++ (parseItem item).toList) []
  { query := query
    results := results
    total_results := (results.length : Int)
    search_time := search_time
    engines_used := (results.flatMap (fun r => r.engines)).dedup
    suggestions := data.suggestions }

/-- The outcome of the one HTTP GET issued by `_make_request`: the
transport times out, fails to connect, or delivers a response with a
status code, a body, and the body's JSON parse (none = not valid JSON). -/
inductive TransportOutcome where
  | timeout
  | connectionError
  | httpResponse (status : Nat) (body : String) (json : Option SearxData)
deriving Repr

/-- One search parameter value: Python stores both strings and ints in
the params dict. -/
inductive ParamValue where
  | str (s : String)
  | int (i : Int)
deriving DecidableEq, Repr

/-- src/search_engine/client.py `SearXNGClient._build_search_params`:
base params from the config, optional params when set/non-empty, then
`params.update(kwargs)` — overrides win key-by-key, appended keys kept. -/
def _build_search_params (cfg : SearchConfig) (query : String)
    (kwargs : List (String × ParamValue)) : List (String × ParamValue) :=
  let base : List (String × ParamValue) :=
    [("q", .str query), ("format", .str "json"),
     ("language", .str cfg.language), ("safesearch", .int cfg.safe_search)]
  let base := match cfg.time_range with
    | some tr => if tr ≠ "" then base ++ [("time_range", .str tr)] else base
    | none => base
  let base := if cfg.categories ≠ [] then
      base ++ [("categories", .str (String.intercalate "," cfg.categories))]
    else base
  let base := if cfg.engines ≠ [] then
      base ++ [("engines", .str (String.intercalate "," cfg.engines))]
    else base
  (base.filter (fun kv => ¬ (kwargs.map Prod.fst).contains kv.1)) ++ kwargs

/-- src/search_engine/client.py `SearXNGClient._make_request` (lines
90-127): classify the transport outcome in the order the code checks —
timeout, connection error, then `raise_for_status` (any 4xx/5xx status
raises HTTPError, dispatched on 403 / 429 / other), then the empty-body
check, then JSON parsing. -/
def _make_request (cfg : SearchConfig) (t : TransportOutcome) :
    Except SearchError SearxData :=
  match t with
  | .timeout => .error (.networkError "Request to SearXNG timed out")
  | .connectionError =>
      .error (.networkError ("Cannot connect to SearXNG at " ++ cfg.base_url))
  | .httpResponse status body json =>
      if 400 ≤ status then
        if status = 403 then
          .error (.apiError "Access forbidden - check if JSON format is enabled")
        else if status = 429 then
          .error (.apiError "Rate limit exceeded - try again later")
        else
          .error (.networkError ("HTTP " ++ toString status))
      else if pyStrip body = "" then
        .error (.apiError "Empty response from SearXNG")
      else
        match json with
        | none => .error (.apiError "Invalid JSON response from SearXNG")
        | some d => .ok d

/-- src/search_engine/client.py `SearXNGClient.search` (lines 177-207),
with the HTTP requests actually issued returned alongside the result so
that "no network call" is expressible: the empty-query guard runs before
any parameter building or request; one request is issued otherwise.  The
measured wall-clock `search_time` is passed in as `elapsed`. -/
def search (cfg : SearchConfig) (t : TransportOutcome) (query : String)
    (kwargs : List (String × ParamValue)) (elapsed : ℚ) :
    Except SearchError SearchResponse × List (List (String × ParamValue)) :=
  if query = "" ∨ pyStrip query = "" then
    (.error (.valueError "Search query cannot be empty"), [])
  else
    let params := _build_search_params cfg (pyStrip query) kwargs
    match _make_request cfg t with
    | .error e => (.error e, [params])
    | .ok data => (.ok (_parse_results cfg data query elapsed), [params])

/-- src/search_engine/client.py `SearXNGClient.search_news` (lines
209-226): force `categories = "news"`, default `time_range` to "year"
unless the caller overrode it (`kwargs.pop('time_range', 'year')`), then
delegate to `search`. -/
def search_news (cfg : SearchConfig) (t : TransportOutcome) (query : String)
    (kwargs : List (String × ParamValue)) (elapsed : ℚ) :
    Except SearchError SearchResponse × List (List (String × ParamValue)) :=
  let tr := match kwargs.find? (fun kv => kv.1 = "time_range") with
    | some kv => kv.2
    | none => .str "year"
  let rest := kwargs.filter (fun kv => kv.1 ≠ "time_range")
  let news : List (String × ParamValue) :=
    [("categories", .str "news"), ("time_range", tr)]
  let merged := (news.filter
      (fun kv => ¬ (rest.map Prod.fst).contains kv.1)) ++ rest
  search cfg t query merged elapsed

end SearchEngine

namespace OpenAIService

/-- src/services/openai/client.py `SearchResult` (the enhancement
service's own result dataclass). -/
structure SearchResult where
  title : String
  url : String
  content : String
  engine : String
  score : ℚ
  category : String
deriving DecidableEq, Repr

/-- src/services/openai/client.py `AIEnhancedResult`. -/
structure AIEnhancedResult where
  original_result : SearchResult
  ai_summary : String
  relevance_score : ℚ
  key_points : List String
  sentiment : String
deriving DecidableEq, Repr

/-- One tool call in the model's response: the function name and the
JSON-decoded arguments object (string-valued fields suffice for the
schemas in use).  A tool call whose arguments fail to JSON-decode raises
inside the `try` and lands on the same path as a failed chat call. -/
structure ToolCall where
  name : String
  args : List (String × String)
deriving DecidableEq, Repr

/-- Python `args.get(key, default)` on the decoded arguments object. -/
def getArg (args : List (String × String)) (key default : String) : String :=
  match args.find? (fun kv => kv.1 = key) with
  | some kv => kv.2
  | none => default

/-- Outcome of one `client.chat.completions.create` call issuing tools:
either the call raised an exception, or it returned a message whose
`tool_calls` is the given list (empty list = `None`/no tool calls, which
is falsy in Python either way). -/
inductive ChatOutcome where
  | raised
  | ok (toolCalls : List ToolCall)
deriving Repr

/-- The model backend as seen by one `OpenAISearchService` call: the
outcome of the primary tool-choice chat call, and the outcome of each
plain completion call, keyed by its prompt (`.error` = the call raised). -/
structure ModelBackend where
  chat : ChatOutcome
  completion : String → Except Unit String

/-- src/services/openai/client.py `_generate_summary` (lines 376-391):
ask for a summary of the first 300 characters of the content; on any
exception return the first 100 characters plus an ellipsis. -/
def _generate_summary (backend : ModelBackend) (content query : String) :
    String :=
  let prompt := "Summarize this content in relation to the query " ++ squote
    ++ query ++ squote ++ ": " ++ pyTake content 300
  match backend.completion prompt with
  | .ok text => pyStrip text
  | .error _ => pyTake content 100 ++ "..."

/-- src/services/openai/client.py `_extract_key_points` (lines 393-409):
split the model text on line breaks, keep non-blank lines, strip leading
and trailing `-`/space from each, take the first 3; on any exception
return the first 50 characters plus an ellipsis as the only point. -/
def _extract_key_points (backend : ModelBackend) (content : String) :
    List String :=
  let prompt := "Extract 3 key points from this content: " ++ pyTake content 300
  match backend.completion prompt with
  | .ok text =>
      (((pySplitOn (pyStrip text) (Char.ofNat 10)).filter
          (fun p => pyStrip p ≠ "")).map
        (fun p => pyStrip (pyStripChars p [Char.ofNat 45, Char.ofNat 32]))).take 3
  | .error _ => [pyTake content 50 ++ "..."]

/-- src/services/openai/client.py `_calculate_relevance_score` (lines
411-428): whitespace-tokenize the lowercased query; the score is
`min(1.0, matches_in_title/n * 0.6 + matches_in_content/n * 0.4)` where a
match is Python substring membership.  When the query has no tokens the
division raises ZeroDivisionError, caught by the bare `except` returning
0.5 — modeled by the explicit zero-token branch. -/
def _calculate_relevance_score (result : SearchResult) (query : String) : ℚ :=
  let query_words := pySplit (pyLower query)
  let title_lower := pyLower result.title
  let content_lower := pyLower result.content
  let title_matches :=
    (query_words.filter (fun w => strContains title_lower w)).length
  let content_matches :=
    (query_words.filter (fun w => strContains content_lower w)).length
  if query_words.length = 0 then 0.5
  else
    min 1.0 ((title_matches : ℚ) / query_words.length * 0.6 +
             (content_matches : ℚ) / query_words.length * 0.4)

/-- src/services/openai/client.py `_process_search_analysis` (lines
330-354): for each of the first 5 results, derive summary, key points
and relevance score, and package them with `sentiment="neutral"`.  The
decoded `analysis_args` are received but unused by the loop. -/
def _process_search_analysis (backend : ModelBackend) (query : String)
    (results : List SearchResult) (analysis_args : List (String × String)) :
    List AIEnhancedResult :=
  let _ := analysis_args
  (results.take 5).map (fun result =>
    { original_result := result
      ai_summary := _generate_summary backend result.content query
      relevance_score := _calculate_relevance_score result query
      key_points := _extract_key_points backend result.content
      sentiment := "neutral" })

/-- src/services/openai/client.py `_create_basic_enhanced_results` (lines
356-374): the deterministic fallback, over the whole input list:
summary = content truncated to 200 characters plus ellipsis when longer
than 200, else the content itself; score 0.5; key points = the title;
sentiment neutral. -/
def _create_basic_enhanced_results (query : String)
    (results : List SearchResult) : List AIEnhancedResult :=
  let _ := query
  results.map (fun result =>
    { original_result := result
      ai_summary := if result.content.length > 200 then
          pyTake result.content 200 ++ "..."
        else result.content
      relevance_score := 0.5
      key_points := [result.title]
      sentiment := "neutral" })

/-- src/services/openai/client.py `enhance_search_results` (lines
142-215): one chat call with `tool_choice="auto"`.  If it raises, fall
back to the basic enhancement of the full input list.  If it returns
tool calls, run `_process_search_analysis` for each call named
`analyze_search_results` (the last one wins), starting from the empty
list; if it returns no tool calls, fall back to the basic enhancement. -/
def enhance_search_results (backend : ModelBackend) (query : String)
    (results : List SearchResult) : List AIEnhancedResult :=
  match backend.chat with
  | .raised => _create_basic_enhanced_results query results
  | .ok toolCalls =>
      if toolCalls.isEmpty then
        _create_basic_enhanced_results query results
      else
        toolCalls.foldl (fun acc tc =>
          if tc.name = "analyze_search_results" then
            _process_search_analysis backend query results tc.args
          else acc) []

/-- The intent dictionary returned by `extract_search_intent` /
`_process_intent_extraction`. -/
structure SearchIntent where
  query : String
  intent_type : String
  category : String
  urgency : String
  confidence : ℚ
deriving DecidableEq, Repr

/-- src/services/openai/client.py `_process_intent_extraction` (lines
450-481): keyword-membership classification over the lowercased query
taken from the tool call's arguments; urgency is always "medium",
confidence 0.8. -/
def _process_intent_extraction (args : List (String × String)) :
    SearchIntent :=
  let query := getArg args "query" ""
  let ql := pyLower query
  let intent_type :=
    if ["buy", "purchase", "price", "cost"].any
        (fun w => strContains ql w) then "transactional"
    else if ["how to", "tutorial", "guide"].any
        (fun w => strContains ql w) then "informational"
    else if ["login", "website", "official"].any
        (fun w => strContains ql w) then "navigational"
    else "informational"
  let category :=
    if ["tech", "programming", "software"].any
        (fun w => strContains ql w) then "technology"
    else if ["health", "medical", "doctor"].any
        (fun w => strContains ql w) then "health"
    else if ["news", "current", "latest"].any
        (fun w => strContains ql w) then "news"
    else "general"
  { query := query, intent_type := intent_type, category := category,
    urgency := "medium", confidence := 0.8 }

/-- src/services/openai/client.py `extract_search_intent` (lines
267-328): on an exception, the fixed fallback (informational, general,
medium, confidence 0.5); otherwise start from the default dictionary
(informational, general, medium, confidence 0.8) and overwrite it with
`_process_intent_extraction` for each tool call named
`extract_search_intent` (the last one wins). -/
def extract_search_intent (chat : ChatOutcome) (query : String) :
    SearchIntent :=
  match chat with
  | .raised =>
      { query := query, intent_type := "informational", category := "general",
        urgency := "medium", confidence := 0.5 }
  | .ok toolCalls =>
      toolCalls.foldl (fun acc tc =>
        if tc.name = "extract_search_intent" then
          _process_intent_extraction tc.args
        else acc)
        { query := query, intent_type := "informational",
          category := "general", urgency := "medium", confidence := 0.8 }

end OpenAIService

/-! ### Concrete test fixtures -/

namespace SearchEngine

/-- The default configuration of config.py (base_url
"http://localhost:8888", timeout 30, max_results 10, language "en",
safe_search 0, no time range, categories ["general"], no engines). -/
def cfg0 : SearchConfig :=
  ⟨"http://localhost:8888", 30, 10, "en", 0, none, ["general"], []⟩

/-- The default configuration with `max_results = 5`. -/
def cfg5 : SearchConfig :=
  ⟨"http://localhost:8888", 30, 5, "en", 0, none, ["general"], []⟩

/-- A raw upstream item with a valid https url built from an index tag. -/
def rawValid (tag : String) : RawItem :=
  ⟨some ("T" ++ tag), some ("https://example.com/" ++ tag), some ("c" ++ tag),
   some ["ddg"], some "general", none⟩

/-- Seven raw upstream items, all with valid https urls. -/
def items7 : List RawItem :=
  [rawValid "1", rawValid "2", rawValid "3", rawValid "4", rawValid "5",
   rawValid "6", rawValid "7"]

/-- A raw item whose url is the empty string (no http/https scheme). -/
def rawEmptyUrl : RawItem :=
  ⟨some "A", some "", some "ca", some ["ddg"], some "general", none⟩

/-- A raw item with an ftp url (invalid scheme). -/
def rawFtp : RawItem :=
  ⟨some "F", some "ftp://example.com/f", some "cf", some ["ddg"],
   some "general", none⟩

/-- An upstream batch whose only item has an empty url. -/
def dataEmptyUrl : SearxData := ⟨[rawEmptyUrl], []⟩

/-- An upstream batch of six items: one invalid-scheme item followed by
five valid ones. -/
def dataFtpFirst : SearxData :=
  ⟨rawFtp :: [rawValid "1", rawValid "2", rawValid "3", rawValid "4",
    rawValid "5"], []⟩

end SearchEngine

namespace OpenAIService

/-- One enhancement-service search result built from an index tag. -/
def oaResult (tag : String) : SearchResult :=
  ⟨"T" ++ tag, "https://example.com/" ++ tag, "content " ++ tag, "ddg", 0,
   "general"⟩

/-- Six enhancement-service search results. -/
def results6 : List SearchResult :=
  [oaResult "1", oaResult "2", oaResult "3", oaResult "4", oaResult "5",
   oaResult "6"]

/-- A fixed single result whose title is the query token, for relevance
evaluation. -/
def resAlpha : SearchResult :=
  ⟨"alpha guide", "https://example.com/a", "all about alpha", "ddg", 0,
   "general"⟩

end OpenAIService

/-! ### Helper lemmas -/

/-- Appending-fold over an option-producing step is `filterMap`
(`none` appends nothing — the loop's `continue`; `some r` appends `r`). -/
theorem foldl_opt_append {α β : Type} (f : α → Option β) (l : List α)
    (acc : List β) :
    l.foldl (fun a x => a ++ (f x).toList) acc = acc ++ l.filterMap f := by
  induction l generalizing acc with
  | nil => simp
  | cons hd tl ih =>
      cases h : f hd <;> simp [List.foldl_cons, h, ih]

/-- A conditional `filterMap` is a `filter` followed by a `map`. -/
theorem filterMap_ite_eq_filter_map {α β : Type} (f : α → Option β)
    (p : α → Bool) (g : α → β)
    (hf : ∀ x, f x = if p x then some (g x) else none) (l : List α) :
    l.filterMap f = (l.filter p).map g := by
  induction l with
  | nil => simp
  | cons hd tl ih =>
      rw [List.filterMap_cons, List.filter_cons, hf hd]
      cases h : p hd <;> simp [h, ih]

namespace SearchEngine

/-- `parseItem` written as a guarded conversion: keep an item exactly
when its url is empty or carries an http/https scheme. -/
theorem parseItem_eq_ite (item : RawItem) :
    parseItem item
      = (if ((item.url.getD "") = "" ∨
             pyStartsWith (item.url.getD "") "http://" ∨
             pyStartsWith (item.url.getD "") "https://" : Bool)
         then some { title := item.title.getD "No title"
                     url := item.url.getD ""
                     content := item.content.getD ""
                     engines := item.engines.getD []
                     category := item.category.getD "general"
                     publishedDate := item.publishedDate }
         else none) := by
  unfold parseItem
  by_cases h : (item.url.getD "") = "" <;>
    by_cases h2 : (pyStartsWith (item.url.getD "") "http://" = true
      ∨ pyStartsWith (item.url.getD "") "https://" = true) <;>
    simp [h, h2]

/-- `total_results` is computed as the length of the surviving result
list (`total_results=len(results)` in `_parse_results`). -/
theorem parse_results_total (cfg : SearchConfig) (data : SearxData)
    (query : String) (st : ℚ) :
    (_parse_results cfg data query st).total_results
      = ((_parse_results cfg data query st).results.length : Int) := rfl

/-- A successful `search` call reports `total_results` equal to the
length of the result list it returns. -/
theorem search_ok_total (cfg : SearchConfig) (t : TransportOutcome)
    (q : String) (kw : List (String × ParamValue)) (e : ℚ)
    (resp : SearchResponse) (log : List (List (String × ParamValue)))
    (h : search cfg t q kw e = (.ok resp, log)) :
    resp.total_results = (resp.results.length : Int) := by
  unfold search at h
  split_ifs at h
  · exact absurd (congrArg Prod.fst h) (by simp)
  · cases hmr : _make_request cfg t with
    | error err => rw [hmr] at h; exact absurd (congrArg Prod.fst h) (by simp)
    | ok data =>
        rw [hmr] at h
        have : resp = _parse_results cfg data q e := by
          have := congrArg Prod.fst h
          simpa using this.symm
        rw [this]
        exact parse_results_total cfg data q e

/-- The surviving results of `_parse_results`: the first `max_results`
raw items, filtered by the url-scheme check, converted by the `get`
defaults, in upstream order. -/
theorem parse_results_results (cfg : SearchConfig) (data : SearxData)
    (query : String) (st : ℚ) :
    (_parse_results cfg data query st).results
      = ((data.results.take cfg.max_results.toNat).filter
          (fun item => ((item.url.getD "") = "" ∨
            pyStartsWith (item.url.getD "") "http://" ∨
            pyStartsWith (item.url.getD "") "https://" : Bool))).map
          (fun item =>
            { title := item.title.getD "No title"
              url := item.url.getD ""
              content := item.content.getD ""
              engines := item.engines.getD []
              category := item.category.getD "general"
              publishedDate := item.publishedDate }) := by
  show ((data.results.take cfg.max_results.toNat).foldl
    (fun acc item => acc ++ (parseItem item).toList) []) = _
  rw [foldl_opt_append parseItem]
  rw [filterMap_ite_eq_filter_map parseItem _ _ parseItem_eq_ite]
  rfl

end SearchEngine

/-! ### Claim theorems -/

namespace SearchEngine

/-- C5: constructing a `SearchConfig` succeeds, with every field taken
unchanged from the arguments (never clamped), exactly when the base url
has an http/https scheme, the timeout and max_results are positive, and
safe_search is 0, 1 or 2; in every other case construction fails with a
ValueError. -/
theorem C5_config_validation (b : String) (t m : Int) (l : String)
    (s : Int) (tr : Option String) (cats eng : List String) :
    (mkSearchConfig b t m l s tr cats eng = .ok ⟨b, t, m, l, s, tr, cats, eng⟩
      ↔ ((pyStartsWith b "http://" = true ∨ pyStartsWith b "https://" = true)
          ∧ 0 < t ∧ 0 < m ∧ (s = 0 ∨ s = 1 ∨ s = 2)))
    ∧ ((∃ msg, mkSearchConfig b t m l s tr cats eng
          = .error (.valueError msg))
      ↔ ¬ ((pyStartsWith b "http://" = true ∨ pyStartsWith b "https://" = true)
          ∧ 0 < t ∧ 0 < m ∧ (s = 0 ∨ s = 1 ∨ s = 2))) := by
  unfold mkSearchConfig
  split_ifs with h1 h2 h3 h4 <;> constructor <;> simp_all

end SearchEngine

namespace SearchEngine

/-- C9 (counterexample): the empty query makes `search` raise the Python
builtin ValueError with message "Search query cannot be empty" — not an
`EmptyQueryError`, a class the repository never defines — though indeed
before any HTTP request (the request log is empty). -/
theorem C9_counterexample :
    search cfg0 (.httpResponse 200 "x" (some ⟨[], []⟩)) "" [] 0
      = (.error (.valueError "Search query cannot be empty"), []) := rfl

/-- C9 (amended): for every query that is empty or whitespace-only,
`search` fails with ValueError "Search query cannot be empty" before
building request parameters or making any network call (the request log
is empty). -/
theorem C9_blank_query (cfg : SearchConfig) (t : TransportOutcome)
    (q : String) (kw : List (String × ParamValue)) (e : ℚ)
    (h : q = "" ∨ pyStrip q = "") :
    search cfg t q kw e
      = (.error (.valueError "Search query cannot be empty"), []) := by
  unfold search
  rw [if_pos h]

/-- C9 witness: the all-whitespace query " " is rejected with no request
issued. -/
theorem C9_blank_query_witness :
    ((" " : String) = "" ∨ pyStrip " " = "")
    ∧ search cfg0 .timeout " " [] 0
        = (.error (.valueError "Search query cannot be empty"), []) :=
  ⟨by decide, C9_blank_query cfg0 .timeout " " [] 0 (by decide)⟩

/-- C4 (counterexample): with the default configuration (timeout 30), a
transport timeout raises NetworkError "Request to SearXNG timed out",
whose message does not contain the configured timeout value "30". -/
theorem C4_counterexample :
    (search cfg0 .timeout "test" [] 0).1
        = .error (.networkError "Request to SearXNG timed out")
    ∧ cfg0.timeout = 30
    ∧ strContains "Request to SearXNG timed out" (toString (30 : Int))
        = false :=
  ⟨rfl, rfl, by decide⟩

/-- C4 (amended): for every configuration and non-blank query, a
transport timeout during `search` raises NetworkError with the fixed
message "Request to SearXNG timed out"; the configured timeout value
appears only in a log line, not in the exception message. -/
theorem C4_timeout_error (cfg : SearchConfig) (q : String)
    (kw : List (String × ParamValue)) (e : ℚ)
    (h : ¬ (q = "" ∨ pyStrip q = "")) :
    (search cfg .timeout q kw e).1
      = .error (.networkError "Request to SearXNG timed out") := by
  unfold search
  rw [if_neg h]
  rfl

/-- C4 witness: the timeout classification at the default configuration
and the query "test". -/
theorem C4_timeout_error_witness :
    ¬ (("test" : String) = "" ∨ pyStrip "test" = "")
    ∧ (search cfg0 .timeout "test" [] 0).1
        = .error (.networkError "Request to SearXNG timed out") :=
  ⟨by decide, C4_timeout_error cfg0 "test" [] 0 (by decide)⟩

/-- C2 (counterexample): (a) an item whose url is the empty string —
which lacks an http/https scheme — is kept by `_parse_results`, not
dropped; (b) with `max_results = 5` and six upstream items (one
invalid-scheme item first, then five valid ones), only four results
survive although five valid-scheme items are upstream: truncation to
`max_results` happens before the scheme filter. -/
theorem C2_counterexample :
    ((_parse_results cfg5 dataEmptyUrl "q" 0).results.map (fun r => r.url)
        = [""])
    ∧ (pyStartsWith "" "http://" = false ∧ pyStartsWith "" "https://" = false)
    ∧ (_parse_results cfg5 dataFtpFirst "q" 0).results.length = 4
    ∧ (dataFtpFirst.results.filter
        (fun it => pyStartsWith (it.url.getD "") "https://")).length = 5 :=
  ⟨rfl, ⟨rfl, rfl⟩, rfl, rfl⟩

/-- C2 (amended): the parsed results are exactly the first `max_results`
upstream items filtered by the url check — an item is kept iff its url
is empty or carries an http/https scheme — converted with the
`item.get` defaults, in upstream order; valid items beyond the first
`max_results` raw items are not considered, and no item aborts the
response. -/
theorem C2_parse_characterization (cfg : SearchConfig) (data : SearxData)
    (q : String) (st : ℚ) :
    (_parse_results cfg data q st).results
      = ((data.results.take cfg.max_results.toNat).filter
          (fun item => ((item.url.getD "") = "" ∨
            pyStartsWith (item.url.getD "") "http://" ∨
            pyStartsWith (item.url.getD "") "https://" : Bool))).map
          (fun item =>
            { title := item.title.getD "No title"
              url := item.url.getD ""
              content := item.content.getD ""
              engines := item.engines.getD []
              category := item.category.getD "general"
              publishedDate := item.publishedDate }) :=
  parse_results_results cfg data q st

/-- C6: every successful `search` or `search_news` response reports
`total_results` equal to the length of the result list it carries; and
for any seven raw upstream items with valid (https) urls under
`max_results = 5`, parsing yields exactly five results with
`total_results = 5`. -/
theorem C6_total_results :
    (∀ (cfg : SearchConfig) (t : TransportOutcome) (q : String)
        (kw : List (String × ParamValue)) (e : ℚ) (resp : SearchResponse)
        (log : List (List (String × ParamValue))),
        search cfg t q kw e = (.ok resp, log) →
          resp.total_results = (resp.results.length : Int))
    ∧ (∀ (cfg : SearchConfig) (t : TransportOutcome) (q : String)
        (kw : List (String × ParamValue)) (e : ℚ) (resp : SearchResponse)
        (log : List (List (String × ParamValue))),
        search_news cfg t q kw e = (.ok resp, log) →
          resp.total_results = (resp.results.length : Int))
    ∧ (∀ (items : List RawItem), items.length = 7 →
        (∀ it ∈ items, pyStartsWith (it.url.getD "") "https://" = true) →
        ∀ (q : String) (st : ℚ),
          (_parse_results cfg5 ⟨items, []⟩ q st).results.length = 5
          ∧ (_parse_results cfg5 ⟨items, []⟩ q st).total_results = 5) := by
  refine ⟨fun cfg t q kw e resp log h => search_ok_total cfg t q kw e resp log h,
    fun cfg t q kw e resp log h => search_ok_total cfg t q _ e resp log h,
    fun items h7 hvalid q st => ?_⟩
  have hchar := parse_results_results cfg5 ⟨items, []⟩ q st
  have hmax : cfg5.max_results.toNat = 5 := rfl
  rw [hmax] at hchar
  have hfilter : (items.take 5).filter
      (fun item => ((item.url.getD "") = "" ∨
        pyStartsWith (item.url.getD "") "http://" ∨
        pyStartsWith (item.url.getD "") "https://" : Bool)) = items.take 5 := by
    apply List.filter_eq_self.mpr
    intro it hit
    have := hvalid it (List.mem_of_mem_take hit)
    simp [this]
  have hlen : (_parse_results cfg5 ⟨items, []⟩ q st).results.length = 5 := by
    rw [hchar, hfilter, List.length_map, List.length_take, h7]
    omega
  exact ⟨hlen, by rw [parse_results_total, hlen]; rfl⟩

/-- C6 witness: the seven-valid-item scenario and a successful search at
the default-with-`max_results = 5` configuration. -/
theorem C6_total_results_witness :
    ((_parse_results cfg5 ⟨items7, []⟩ "q" 0).results.length = 5
      ∧ (_parse_results cfg5 ⟨items7, []⟩ "q" 0).total_results = 5)
    ∧ (_parse_results cfg5 ⟨items7, []⟩ "news" 0).total_results
        = ((_parse_results cfg5 ⟨items7, []⟩ "news" 0).results.length : Int) :=
  ⟨C6_total_results.2.2 items7 rfl (by decide) "q" 0,
   C6_total_results.1 cfg5 (.httpResponse 200 "b" (some ⟨items7, []⟩))
     "news" [] 0 (_parse_results cfg5 ⟨items7, []⟩ "news" 0)
     [_build_search_params cfg5 (pyStrip "news") []] rfl⟩

end SearchEngine

namespace OpenAIService

/-- C1 (counterexample): on the exception fallback path (a raised chat
call) six input results yield six enhanced results, not
`min(6,5) = 5` — the fallback enhances the whole input list. -/
theorem C1_counterexample :
    (enhance_search_results ⟨.raised, fun _ => .error ()⟩ "q" results6).length
        = 6
    ∧ min results6.length 5 = 5 :=
  ⟨rfl, rfl⟩

/-- C1 (amended): `enhance_search_results` returns, on the
`analyze_search_results` tool-call path, `min(n,5)` results
corresponding 1:1 and in order to the first `min(n,5)` input results;
on the no-tool-call fallback path and on the exception fallback path it
returns one result per input (length `n`), 1:1 and in input order. -/
theorem C1_enhance_shapes (f : String → Except Unit String) (q : String)
    (results : List SearchResult) (args : List (String × String)) :
    ((enhance_search_results ⟨.raised, f⟩ q results).map
        (fun er => er.original_result) = results)
    ∧ ((enhance_search_results ⟨.ok [], f⟩ q results).map
        (fun er => er.original_result) = results)
    ∧ ((enhance_search_results ⟨.ok [⟨"analyze_search_results", args⟩], f⟩
          q results).map (fun er => er.original_result) = results.take 5)
    ∧ (enhance_search_results ⟨.ok [⟨"analyze_search_results", args⟩], f⟩
          q results).length = min results.length 5 := by
  refine ⟨?_, ?_, ?_, ?_⟩
  · simp [enhance_search_results, _create_basic_enhanced_results,
      List.map_map, Function.comp_def]
  · simp [enhance_search_results, _create_basic_enhanced_results,
      List.map_map, Function.comp_def]
  · simp [enhance_search_results, _process_search_analysis,
      List.map_map, Function.comp_def]
  · simp [enhance_search_results, _process_search_analysis,
      List.length_take, Nat.min_comm]

/-- C3: whenever the primary chat call raises, `enhance_search_results`
returns — for every input result, whatever the completion oracle would
do — the deterministic fallback: summary is the content truncated to
200 characters plus an ellipsis when longer than 200 (else the full
content), relevance score 0.5, key points = the title, sentiment
neutral. -/
theorem C3_exception_fallback (f : String → Except Unit String)
    (q : String) (results : List SearchResult) :
    enhance_search_results ⟨.raised, f⟩ q results
      = results.map (fun r =>
          { original_result := r
            ai_summary := if r.content.length > 200 then
                pyTake r.content 200 ++ "..."
              else r.content
            relevance_score := 0.5
            key_points := [r.title]
            sentiment := "neutral" }) := rfl

end OpenAIService

namespace OpenAIService

/-- C7: for every result and every query with a non-empty whitespace
tokenization, the relevance score equals `min(1, 0.6·(fraction of query
tokens occurring, case-insensitively, in the title) + 0.4·(fraction
occurring in the content))`, and it lies in [0, 1]. -/
theorem C7_relevance_formula (result : SearchResult) (query : String)
    (h : pySplit (pyLower query) ≠ []) :
    _calculate_relevance_score result query
      = min 1.0
          (0.6 * ((((pySplit (pyLower query)).filter
              (fun w => strContains (pyLower result.title) w)).length : ℚ) /
                ((pySplit (pyLower query)).length : ℚ))
           + 0.4 * ((((pySplit (pyLower query)).filter
              (fun w => strContains (pyLower result.content) w)).length : ℚ) /
                ((pySplit (pyLower query)).length : ℚ)))
    ∧ 0 ≤ _calculate_relevance_score result query
    ∧ _calculate_relevance_score result query ≤ 1 := by
  have hlen : (pySplit (pyLower query)).length ≠ 0 := by
    simpa [List.length_eq_zero] using h
  have hscore : _calculate_relevance_score result query
      = min 1.0
          ((((pySplit (pyLower query)).filter
              (fun w => strContains (pyLower result.title) w)).length : ℚ) /
                ((pySplit (pyLower query)).length : ℚ) * 0.6
           + (((pySplit (pyLower query)).filter
              (fun w => strContains (pyLower result.content) w)).length : ℚ) /
                ((pySplit (pyLower query)).length : ℚ) * 0.4) := by
    simp only [_calculate_relevance_score]
    rw [if_neg hlen]
  refine ⟨?_, ?_, ?_⟩
  · rw [hscore]
    congr 1
    ring
  · rw [hscore]
    refine le_min (by norm_num) ?_
    positivity
  · rw [hscore]
    calc min (1.0 : ℚ) _ ≤ 1.0 := min_le_left _ _
      _ = 1 := by norm_num

/-- C7 witness: the one-token query "alpha" against a result whose title
contains it. -/
theorem C7_relevance_formula_witness :
    pySplit (pyLower "alpha") ≠ []
    ∧ _calculate_relevance_score resAlpha "alpha" ≤ 1 :=
  ⟨by decide, (C7_relevance_formula resAlpha "alpha" (by decide)).2.2⟩

/-- C10: for every query whose whitespace tokenization is empty, the
relevance computation takes the caught-ZeroDivisionError branch and
returns 0.5 instead of raising, so the score derivation is total. -/
theorem C10_zero_division_guard (result : SearchResult) (query : String)
    (h : pySplit (pyLower query) = []) :
    _calculate_relevance_score result query = 0.5 := by
  simp only [_calculate_relevance_score]
  rw [h]
  norm_num

/-- C10 witness: the empty query tokenizes to nothing and scores 0.5. -/
theorem C10_zero_division_guard_witness :
    pySplit (pyLower "") = []
    ∧ _calculate_relevance_score resAlpha "" = 0.5 :=
  ⟨rfl, C10_zero_division_guard resAlpha "" rfl⟩

/-- C8 (counterexample): on the exception fallback path,
`extract_search_intent "buy cheap laptop"` returns intent_type
"informational" with confidence 0.5 — the keyword table (which would
give "transactional") is never consulted there. -/
theorem C8_counterexample :
    (extract_search_intent .raised "buy cheap laptop").intent_type
        = "informational"
    ∧ (extract_search_intent .raised "buy cheap laptop").intent_type
        ≠ "transactional"
    ∧ (extract_search_intent .raised "buy cheap laptop").confidence = 0.5 :=
  ⟨rfl, by decide, rfl⟩

/-- C8 (amended): on the model-assisted path, a tool call echoing the
query "buy cheap laptop" classifies it as "transactional" via the fixed
keyword table, with urgency "medium" and confidence 0.8; on the
exception fallback path the function still returns a fully populated
structure for the same query, but with the hardcoded intent_type
"informational", urgency "medium" and confidence 0.5 — the keyword
table only runs on the model-assisted path. -/
theorem C8_intent_paths :
    extract_search_intent
        (.ok [⟨"extract_search_intent", [("query", "buy cheap laptop")]⟩])
        "buy cheap laptop"
      = { query := "buy cheap laptop", intent_type := "transactional",
          category := "general", urgency := "medium", confidence := 0.8 }
    ∧ extract_search_intent .raised "buy cheap laptop"
      = { query := "buy cheap laptop", intent_type := "informational",
          category := "general", urgency := "medium", confidence := 0.5 } :=
  ⟨rfl, rfl⟩

end OpenAIService
